import Mathlib

/-!
Verification of the token lifecycle and renewal protocol of the
desafio-tripulaciones backend.

The development shallowly embeds the JavaScript sources:

* `backend/middlewares/checkRefreshCookie.js` — the renewal-interceptor
  router (`checkRefreshCookie`) and, appended in the same file, the
  `authMiddleware` collection (`authenticate`, `requireAdmin`, `requireHR`,
  `requireMarketing`, `isAuthenticated`, `hasRole`, `hasAnyRole`);
* `backend/controllers/authController.js` — `login`, `refreshToken`,
  `logout`;
* the `authModel` (`login`) and the SQL of `queries/authQueries.js`
  (`login`, `getUserById`) and the `users` table schema of
  `queries/adminQueries.js` (`INSERT INTO users (role, email, password)`);
* `routes/authRoutes.js` — the `/logout` route pipeline
  (`authenticate` then `logout`).

The token codec `config/jsonwebtoken` (`createAccessToken`,
`verifyAccessToken`, `createRefreshToken`, `verifyRefreshToken`) is absent
from the sources — only its callers are present — so it is modelled from the
spec (section 4.1), as is the external bcrypt library (spec section 4.2).

JavaScript field access on absent keys yields `undefined`; optional record
fields are `Option`-typed and JS truthiness (`undefined`, `""` and `0` are
falsy) is made explicit.
-/

namespace DesafioAuth

/-- JS truthiness of an optional numeric field: `undefined` and `0` are falsy. -/
def jsTruthyNat : Option Nat → Bool
  | some n => n ≠ 0
  | none => false

/-- JS truthiness of an optional string field: `undefined` and `""` are falsy. -/
def jsTruthyStr : Option String → Bool
  | some s => s ≠ ""
  | none => false

/-- JS `o || d` on an optional string: the default wins when `o` is absent or empty. -/
def jsOrStr (o : Option String) (d : String) : String :=
  if jsTruthyStr o then o.getD d else d

/-- The claims payload carried inside a token.  The sources write two
different spellings of the user identifier (`user_id` in the controllers,
`id_user` in `checkRefreshCookie`), so both are kept as optional fields,
exactly as a JS object can carry either key or neither. -/
structure Claims where
  user_id : Option Nat
  id_user : Option Nat
  email : Option String
  role : Option String
  name : Option String
  surname : Option String
  loginMethod : Option String
  deriving Repr, DecidableEq

/-- The two token kinds signed with independent secrets. -/
inductive TokenKind
  | access
  | refresh
  deriving Repr, DecidableEq

/-- Modelled from the spec: the Token Codec (`config/jsonwebtoken`) is not
among the sources, only its callers are.  A wire-format token is either an
unparseable string, or a signed envelope carrying a kind, claims,
issue/expiry times, and a flag recording whether the signature still matches
the payload (flipping a signature byte of a well-formed token makes
`tampered` true). -/
inductive Wire
  | malformed (raw : String)
  | signed (kind : TokenKind) (claims : Claims) (issued_at expires_at : Nat)
      (tampered : Bool)
  deriving Repr, DecidableEq

/-- The three distinguishable verification failures of the Token Codec. -/
inductive VerifyErr
  | expired
  | tampered
  | malformed
  deriving Repr, DecidableEq

/-- Result of token verification: the decoded claims or a tagged failure. -/
inductive VerifyResult
  | ok (claims : Claims)
  | error (e : VerifyErr)
  deriving Repr, DecidableEq

/-- Modelled from the spec: `verify(kind, token)` checks parseability,
signature integrity (a kind mismatch is a signature failure, since the two
kinds use independent secrets) and then expiry; a token verified at exactly
`expires_at` is already expired (inclusive boundary, spec section 8). -/
def verifyKind (kind : TokenKind) (now : Nat) : Wire → VerifyResult
  | .malformed _ => .error .malformed
  | .signed k c _ exp t =>
      if t then .error .tampered
      else if k ≠ kind then .error .tampered
      else if exp ≤ now then .error .expired
      else .ok c

/-- Modelled from the spec: access tokens live 900 seconds. -/
def createAccessToken (now : Nat) (c : Claims) : Wire :=
  .signed .access c now (now + 900) false

/-- Modelled from the spec: refresh tokens live 7 days (604800 seconds). -/
def createRefreshToken (now : Nat) (c : Claims) : Wire :=
  .signed .refresh c now (now + 604800) false

/-- Modelled from the spec: `verifyAccessToken` of `config/jsonwebtoken`. -/
def verifyAccessToken (now : Nat) (w : Wire) : VerifyResult :=
  verifyKind .access now w

/-- Modelled from the spec: `verifyRefreshToken` of `config/jsonwebtoken`. -/
def verifyRefreshToken (now : Nat) (w : Wire) : VerifyResult :=
  verifyKind .refresh now w

/-- The JSON shape `{success, message, code?}` shared by the error and
logout responses of the sources (the development-only `debug` field of
`authenticate` is environment diagnostics and not modelled). -/
structure ApiBody where
  success : Bool
  message : String
  code : Option String
  deriving Repr, DecidableEq

/-- The attributes passed to `res.cookie` / `res.clearCookie`. -/
structure CookieAttrs where
  httpOnly : Bool
  secure : Bool
  sameSite : String
  maxAge : Option Nat
  path : Option String
  deriving Repr, DecidableEq

/-- A cookie operation performed on the response: `res.cookie` (set) or
`res.clearCookie` (clear, with or without attributes). -/
inductive CookieOp
  | set (name : String) (value : Wire) (attrs : CookieAttrs)
  | clear (name : String) (attrs : Option CookieAttrs)
  deriving Repr, DecidableEq

/-- The refresh-cookie attributes used at issuance in `authController`
(`login` and `refreshToken`): HTTP-only, secure in production, strict
same-site, 7-day max-age in milliseconds, path `/api`. -/
def refreshCookieAttrs (prod : Bool) : CookieAttrs :=
  { httpOnly := true
    secure := prod
    sameSite := "strict"
    maxAge := some (7 * 24 * 60 * 60 * 1000)
    path := some "/api" }

/-- The attributes `authController` passes to `res.clearCookie`
(`refreshToken` failure paths and `logout`): same as issuance minus
`maxAge`. -/
def clearCookieAttrs (prod : Bool) : CookieAttrs :=
  { httpOnly := true
    secure := prod
    sameSite := "strict"
    maxAge := none
    path := some "/api" }

/-- A row of the `users` table.  Per `adminQueries.createUser`
(`INSERT INTO users (role, email, password)`) the table stores the serial
`user_id`, `role`, `email` and the bcrypt `password` hash; there are no
name/surname columns. -/
structure UserRow where
  user_id : Nat
  role : String
  email : String
  password : String
  deriving Repr, DecidableEq

/-- The credential store: the `users` table contents. -/
abbrev Db := List UserRow

/-- `authQueries.login`: `SELECT user_id, role, email, password FROM users
WHERE email = $1`. -/
def queryLogin (db : Db) (email : String) : List UserRow :=
  db.filter (fun r => r.email = email)

/-- The projection returned by `authQueries.getUserById` and by
`authModel.login` after stripping the password: `user_id`, `role`,
`email`. -/
structure UserPublicRow where
  user_id : Nat
  role : String
  email : String
  deriving Repr, DecidableEq

/-- `authQueries.getUserById`: `SELECT user_id, role, email FROM users WHERE
user_id = $1` (a `null` parameter matches no row). -/
def queryGetUserById (db : Db) (uid : Option Nat) : List UserPublicRow :=
  match uid with
  | none => []
  | some n =>
      (db.filter (fun r => r.user_id = n)).map
        (fun r => ⟨r.user_id, r.role, r.email⟩)

/-- Modelled from the spec: the Password Verifier (the external bcrypt
library).  `bcryptHash` stands for the salted one-way hash. -/
def bcryptHash (p : String) : String := "bcrypt" ++ p

/-- Modelled from the spec: `bcrypt.compare p h` succeeds exactly when `h`
is the stored hash of `p`. -/
def bcryptCompare (p h : String) : Bool := h = bcryptHash p

namespace AuthModel

/-- `authModel.login`: look the user up by email; no row means `[]`; a
bcrypt mismatch means `[]`; a match returns the first row with the password
hash stripped, in a one-element list. -/
def login (db : Db) (email password : String) : List UserPublicRow :=
  match queryLogin db email with
  | [] => []
  | user :: _ =>
      if bcryptCompare password user.password then
        [⟨user.user_id, user.role, user.email⟩]
      else []

end AuthModel

/-- The `user` object of the success bodies of `authController.login` and
`authController.refreshToken` (no password field exists in this shape). -/
structure PublicUser where
  user_id : Nat
  email : String
  role : String
  name : String
  surname : String
  deriving Repr, DecidableEq

/-- Result of `authController.login`: an error response, or the 200 response
carrying the access token, `expiresIn`, the public user object and the
refresh cookie set on the response. -/
inductive LoginResult
  | failure (status : Nat) (body : ApiBody)
  | success (status : Nat) (accessToken : Wire) (expiresIn : Nat)
      (user : PublicUser) (cookieOps : List CookieOp)
  deriving Repr, DecidableEq

/-- Result of `authController.refreshToken`; failure responses can carry a
`clearCookie` operation. -/
inductive RefreshResult
  | failure (status : Nat) (body : ApiBody) (cookieOps : List CookieOp)
  | success (status : Nat) (accessToken : Wire) (expiresIn : Nat)
      (user : PublicUser) (cookieOps : List CookieOp)
  deriving Repr, DecidableEq

namespace AuthController

/-- `authController.login`.  `prod` is the production flag read from `process.env.NODE_ENV`,
`now` the minting time, `email`/`password` the request-body fields (absent
or empty are both JS-falsy). -/
def login (db : Db) (prod : Bool) (now : Nat)
    (email password : Option String) : LoginResult :=
  if ¬ jsTruthyStr email ∨ ¬ jsTruthyStr password then
    .failure 400 ⟨false, "Email y contraseña son requeridos", none⟩
  else
    match AuthModel.login db (email.getD "") (password.getD "") with
    | [] => .failure 401 ⟨false, "Credenciales inválidas", none⟩
    | user :: _ =>
        .success 200
          (createAccessToken now
            ⟨some user.user_id, none, some user.email, some user.role,
              some "", some "", none⟩)
          900
          ⟨user.user_id, user.email, user.role, "", ""⟩
          [.set "refresh_token"
            (createRefreshToken now
              ⟨some user.user_id, none, some user.email, some user.role,
                none, none, none⟩)
            (refreshCookieAttrs prod)]

/-- `authController.refreshToken`.  The incoming cookie is a raw string
turned into a wire token by the ambient `decode`.  After a successful
verification the controller calls `Auth.getUserById(decoded.user_id)`, but
`models/authModel` exports only `login` and `logout`: the call is applied to
`undefined`, throws a TypeError, and lands in the outer catch — the endpoint
answers 500 `Error interno del servidor` with no cookie operation.  The
`USER_NOT_FOUND` and new-token-pair paths further down the controller are
unreachable dead code and are therefore not part of this embedding. -/
def refreshToken (prod : Bool) (now : Nat)
    (decode : String → Wire) (refreshCookie : Option String) : RefreshResult :=
  if ¬ jsTruthyStr refreshCookie then
    .failure 401
      ⟨false, "Refresh token requerido", some "REFRESH_TOKEN_REQUIRED"⟩ []
  else
    match verifyRefreshToken now (decode (refreshCookie.getD "")) with
    | .error .expired =>
        .failure 401
          ⟨false, "Sesión expirada. Por favor inicie sesión nuevamente.",
            some "SESSION_EXPIRED"⟩
          [.clear "refresh_token" (some (clearCookieAttrs prod))]
    | .error _ =>
        .failure 401
          ⟨false, "Refresh token inválido", some "INVALID_REFRESH_TOKEN"⟩ []
    | .ok _ =>
        .failure 500 ⟨false, "Error interno del servidor", none⟩ []

/-- `authController.logout`: clear the refresh cookie with the
issuance-parity attributes and answer 200 `{success: true, ...}`. -/
def logout (prod : Bool) : Nat × ApiBody × List CookieOp :=
  (200, ⟨true, "Sesión cerrada exitosamente.", none⟩,
    [.clear "refresh_token" (some (clearCookieAttrs prod))])

end AuthController

/-- The token-bearing parts of an incoming request, as probed by
`authMiddleware.authenticate`: the `Authorization` header, the `token`
query parameter, the `access_token` and `refresh_token` cookies, and the
`token` body field.  All are raw strings on the wire. -/
structure Request where
  authorization : Option String
  queryToken : Option String
  cookieAccessToken : Option String
  cookieRefreshToken : Option String
  bodyToken : Option String
  deriving Repr, DecidableEq

/-- The `req.user` object attached by the middlewares.  `authenticate`
fills all six keys; `checkRefreshCookie` builds an object with only
`id_user`, `email` and `role`, so the last three fields are optional. -/
structure UserCtx where
  id_user : Option Nat
  email : Option String
  role : String
  name : Option String
  surname : Option String
  loginMethod : Option String
  deriving Repr, DecidableEq

/-- `req.token` as threaded through the pipeline: the raw string attached
by `authenticate`, or the freshly minted token `checkRefreshCookie`
substitutes on successful renewal. -/
inductive TokenVal
  | raw (s : String)
  | minted (w : Wire)
  deriving Repr, DecidableEq

/-- Split a character list on spaces, JS split-on-space style (adjacent
separators yield empty segments). -/
def splitSpaces : List Char → List Char → List (List Char)
  | [], acc => [acc.reverse]
  | c :: rest, acc =>
      if c = ' ' then acc.reverse :: splitSpaces rest []
      else splitSpaces rest (c :: acc)

/-- The JS expression taking element 1 of the authorization value split on
spaces: the segment after the first space (the
empty string when nothing follows it, `undefined`-as-empty when there is no
space at all — the branch is only reached under the `Bearer ` prefix, which
guarantees a space). -/
def bearerSplit (s : String) : String :=
  String.mk ((splitSpaces s.toList []).getD 1 [])

/-- JS test that the authorization value starts with the 7-character
prefix `Bearer` -plus-space. -/
def startsWithBearer (s : String) : Bool :=
  decide (s.toList.take 7 = "Bearer ".toList)

namespace AuthMiddleware

/-- The token-location step of `authMiddleware.authenticate`: the else-if
chain over header (`Bearer` prefix), query, cookie and body, returning the
candidate (possibly the empty string in the header case) and the recorded
source. -/
def findToken (req : Request) : Option String × String :=
  if jsTruthyStr req.authorization ∧
      startsWithBearer (req.authorization.getD "") then
    (some (bearerSplit (req.authorization.getD "")), "header")
  else if jsTruthyStr req.queryToken then (req.queryToken, "query")
  else if jsTruthyStr req.cookieAccessToken then
    (req.cookieAccessToken, "cookie")
  else if jsTruthyStr req.bodyToken then (req.bodyToken, "body")
  else (none, "none")

/-- Outcome of `authenticate`: an error response, or `next()` with the
request state it leaves behind (`req.user`, `req.token`,
`req.tokenExpired`). -/
inductive AuthOutcome
  | rejected (status : Nat) (body : ApiBody)
  | proceed (user : Option UserCtx) (token : Option String)
      (tokenExpired : Bool)
  deriving Repr, DecidableEq

/-- `authMiddleware.authenticate`: probe the four locations, reject
`TOKEN_REQUIRED` on a falsy candidate, then verify; an expired token
continues the pipeline with `tokenExpired` set and the raw token attached,
any other verification failure rejects `INVALID_TOKEN`; on success the
claims must carry a truthy `user_id` or `id_user` (else
`INVALID_TOKEN_FORMAT`) and the identity is attached with defaulted role,
name, surname and login method. -/
def authenticate (decode : String → Wire) (now : Nat) (req : Request) :
    AuthOutcome :=
  match (findToken req).1 with
  | none =>
      .rejected 401
        ⟨false, "Token de acceso requerido", some "TOKEN_REQUIRED"⟩
  | some token =>
      if token = "" then
        .rejected 401
          ⟨false, "Token de acceso requerido", some "TOKEN_REQUIRED"⟩
      else
        match verifyAccessToken now (decode token) with
        | .ok decoded =>
            let userId :=
              if jsTruthyNat decoded.user_id then decoded.user_id
              else decoded.id_user
            if ¬ jsTruthyNat userId then
              .rejected 401
                ⟨false, "Token inválido: falta identificación de usuario",
                  some "INVALID_TOKEN_FORMAT"⟩
            else
              .proceed
                (some
                  ⟨userId, decoded.email, jsOrStr decoded.role "user",
                    some (jsOrStr decoded.name ""),
                    some (jsOrStr decoded.surname ""),
                    some (jsOrStr decoded.loginMethod "traditional")⟩)
                (some token) false
        | .error .expired => .proceed none (some token) true
        | .error _ =>
            .rejected 401
              ⟨false, "Token inválido o mal formado", some "INVALID_TOKEN"⟩

/-- Outcome of a role gate: `next()` or an error response.  The gates read
`req.user` and mutate nothing, so the outcome carries no context. -/
inductive GateOutcome
  | allow
  | deny (status : Nat) (body : ApiBody)
  deriving Repr, DecidableEq

/-- `authMiddleware.requireAdmin`. -/
def requireAdmin (user : Option UserCtx) : GateOutcome :=
  match user with
  | none => .deny 401 ⟨false, "No autenticado", some "NOT_AUTHENTICATED"⟩
  | some u =>
      if u.role ≠ "admin" then
        .deny 403
          ⟨false, "Acceso denegado: solo administradores",
            some "ADMIN_REQUIRED"⟩
      else .allow

/-- `authMiddleware.requireHR`. -/
def requireHR (user : Option UserCtx) : GateOutcome :=
  match user with
  | none => .deny 401 ⟨false, "No autenticado", some "NOT_AUTHENTICATED"⟩
  | some u =>
      if u.role ≠ "hr" then
        .deny 403
          ⟨false, "Acceso denegado: solo recursos humanos",
            some "HR_REQUIRED"⟩
      else .allow

/-- `authMiddleware.requireMarketing`. -/
def requireMarketing (user : Option UserCtx) : GateOutcome :=
  match user with
  | none => .deny 401 ⟨false, "No autenticado", some "NOT_AUTHENTICATED"⟩
  | some u =>
      if u.role ≠ "mkt" then
        .deny 403
          ⟨false, "Acceso denegado: solo marketing",
            some "MARKETING_REQUIRED"⟩
      else .allow

/-- `authMiddleware.isAuthenticated`. -/
def isAuthenticated (user : Option UserCtx) : GateOutcome :=
  match user with
  | none => .deny 401 ⟨false, "No autenticado", some "NOT_AUTHENTICATED"⟩
  | some _ => .allow

/-- `authMiddleware.hasRole(role)`: the factory-made gate for one role;
note the fixed error code `ROLE_REQUIRED`. -/
def hasRole (role : String) (user : Option UserCtx) : GateOutcome :=
  match user with
  | none => .deny 401 ⟨false, "No autenticado", some "NOT_AUTHENTICATED"⟩
  | some u =>
      if u.role ≠ role then
        .deny 403
          ⟨false, "Acceso denegado. Se requiere rol: " ++ role,
            some "ROLE_REQUIRED"⟩
      else .allow

/-- `authMiddleware.hasAnyRole(roles)`. -/
def hasAnyRole (roles : List String) (user : Option UserCtx) : GateOutcome :=
  match user with
  | none => .deny 401 ⟨false, "No autenticado", some "NOT_AUTHENTICATED"⟩
  | some u =>
      if ¬ roles.contains u.role then
        .deny 403
          ⟨false,
            "Acceso denegado. Se requiere uno de estos roles: " ++
              String.intercalate ", " roles,
            some "ROLE_REQUIRED"⟩
      else .allow

end AuthMiddleware

/-- Outcome of the `checkRefreshCookie` router: `next()` with the updated
request state, the `X-New-Access-Token` header value if one was set, and
the cookie operations performed; or an error response with its cookie
operations. -/
inductive MiddlewareOutcome
  | next (user : Option UserCtx) (token : Option TokenVal)
      (tokenExpired : Bool) (newTokenHeader : Option Wire)
      (cookieOps : List CookieOp)
  | reject (status : Nat) (body : ApiBody) (cookieOps : List CookieOp)
  deriving Repr, DecidableEq

/-- The `checkRefreshCookie` renewal middleware: a no-op unless
`req.tokenExpired`; then the `refresh_token` cookie is required
(`SESSION_EXPIRED`, clearing nothing, when falsy), verified
(any failure clears the cookie with no attributes and rejects
`INVALID_SESSION`), and on success a new access token is minted from the
refresh claims (reading `refreshData.id_user`), attached to the request,
and surfaced in the `X-New-Access-Token` header; no refresh token is
minted and no cookie is written. -/
def checkRefreshCookie (decode : String → Wire) (now : Nat)
    (user : Option UserCtx) (token : Option TokenVal) (tokenExpired : Bool)
    (refreshCookie : Option String) : MiddlewareOutcome :=
  if ¬ tokenExpired then .next user token tokenExpired none []
  else if ¬ jsTruthyStr refreshCookie then
    .reject 401
      ⟨false, "Sesión expirada. Por favor, inicia sesión nuevamente.",
        some "SESSION_EXPIRED"⟩ []
  else
    match verifyRefreshToken now (decode (refreshCookie.getD "")) with
    | .error _ =>
        .reject 401
          ⟨false, "Sesión inválida. Por favor, inicia sesión nuevamente.",
            some "INVALID_SESSION"⟩
          [.clear "refresh_token" none]
    | .ok refreshData =>
        .next
          (some
            ⟨refreshData.id_user, refreshData.email,
              jsOrStr refreshData.role "user", none, none, none⟩)
          (some (.minted (createAccessToken now
            ⟨none, refreshData.id_user, refreshData.email,
              some (jsOrStr refreshData.role "user"), none, none, none⟩)))
          false
          (some (createAccessToken now
            ⟨none, refreshData.id_user, refreshData.email,
              some (jsOrStr refreshData.role "user"), none, none, none⟩))
          []

/-- Outcome of the protected-route pipeline `authenticate` then
`checkRefreshCookie` (the typical mounting documented in the sources). -/
inductive PipelineOutcome
  | rejected (status : Nat) (body : ApiBody) (cookieOps : List CookieOp)
  | handled (user : Option UserCtx) (token : Option TokenVal)
      (tokenExpired : Bool) (newTokenHeader : Option Wire)
      (cookieOps : List CookieOp)
  deriving Repr, DecidableEq

/-- The protected-route pipeline: `authMiddleware.authenticate` followed by
the `checkRefreshCookie` renewal middleware. -/
def protectedPipeline (decode : String → Wire) (now : Nat) (req : Request) :
    PipelineOutcome :=
  match AuthMiddleware.authenticate decode now req with
  | .rejected s b => .rejected s b []
  | .proceed user token tokenExpired =>
      match checkRefreshCookie decode now user (token.map .raw) tokenExpired
          req.cookieRefreshToken with
      | .next u t e h ops => .handled u t e h ops
      | .reject s b ops => .rejected s b ops

/-- A plain status/body/cookie-operations response triple. -/
structure SimpleResult where
  status : Nat
  body : ApiBody
  cookieOps : List CookieOp
  deriving Repr, DecidableEq

/-- The `/logout` route of `authRoutes.js`:
the router mounts `authMiddleware.authenticate` before
`authController.logout` on the logout path —
the authenticator runs before the logout controller. -/
def logoutRoute (decode : String → Wire) (now : Nat) (prod : Bool)
    (req : Request) : SimpleResult :=
  match AuthMiddleware.authenticate decode now req with
  | .rejected s b => ⟨s, b, []⟩
  | .proceed _ _ _ =>
      match AuthController.logout prod with
      | (s, b, ops) => ⟨s, b, ops⟩

/-! ### Concrete fixtures used by witnesses and counterexamples -/

/-- Claims of a login-issued refresh token for user 7 with role `hr`. -/
def demoRefreshClaims : Claims :=
  ⟨some 7, none, some "eva@acme.io", some "hr", none, none, none⟩

/-- Claims of a login-issued access token for user 7 with role `hr`. -/
def demoAccessClaims : Claims :=
  ⟨some 7, none, some "eva@acme.io", some "hr", some "", some "", none⟩

/-- Access-token claims that carry a user id but no role. -/
def demoNoRoleClaims : Claims :=
  ⟨some 7, none, some "eva@acme.io", none, none, none, none⟩

/-- A concrete decode environment: a handful of serialized tokens and their
wire values (`t` suffix: signature flipped; `x` suffix: already expired at
time 500); every other string is unparseable. -/
def demoDecode (s : String) : Wire :=
  if s = "acc7" then .signed .access demoAccessClaims 0 900 false
  else if s = "acc7x" then .signed .access demoAccessClaims 0 100 false
  else if s = "acc7t" then .signed .access demoAccessClaims 0 900 true
  else if s = "ref7" then .signed .refresh demoRefreshClaims 0 604800 false
  else if s = "ref7t" then .signed .refresh demoRefreshClaims 0 604800 true
  else if s = "ref7x" then .signed .refresh demoRefreshClaims 0 100 false
  else if s = "accnr" then .signed .access demoNoRoleClaims 0 900 false
  else if s = "refnr" then
    .signed .refresh ⟨none, some 7, some "eva@acme.io", none, none, none, none⟩
      0 604800 false
  else .malformed s

/-- A one-user credential store matching the demo tokens. -/
def demoDb : Db := [⟨7, "hr", "eva@acme.io", bcryptHash "Passw0rdX"⟩]

/-- A request carrying a signature-flipped access token. -/
def demoTamperReq : Request := ⟨some "Bearer acc7t", none, none, none, none⟩

/-- A request whose Authorization header is exactly `"Bearer "` (empty
candidate) while the query string carries a non-empty token. -/
def emptyBearerReq : Request := ⟨some "Bearer ", some "abc", none, none, none⟩

/-- A request with an expired access token and a valid refresh cookie. -/
def demoRenewReq : Request :=
  ⟨some "Bearer acc7x", none, none, some "ref7", none⟩

/-- The `hr` identity as attached by `authenticate` from `demoAccessClaims`. -/
def demoHrUser : UserCtx :=
  ⟨some 7, some "eva@acme.io", "hr", some "", some "", some "traditional"⟩

/-- An `admin` identity. -/
def demoAdminUser : UserCtx :=
  ⟨some 1, some "root@acme.io", "admin", some "", some "", some "traditional"⟩

/-- The `user_id` claim carried by a wire token, when it is a signed
envelope. -/
def Wire.payloadUserId : Wire → Option Nat
  | .malformed _ => none
  | .signed _ c _ _ _ => c.user_id

/-! ### Theorems -/

/-- C2: when `authenticate` holds a non-empty candidate token, a
verification failure due to expiry does not reject the request: it proceeds
with `tokenExpired` set, the raw token attached and no identity; a
verification failure of any other kind (tampered or malformed) rejects
immediately with `INVALID_TOKEN` (401), and the renewal middleware is never
consulted — the whole pipeline rejects with no cookie operations.  In
particular a token whose signature no longer matches (one flipped signature
byte) is rejected `INVALID_TOKEN` whatever the clock says, never treated as
expired. -/
theorem authenticate_expired_defers_invalid_rejects
    (decode : String → Wire) (now : Nat) (req : Request) (t : String)
    (hfind : (AuthMiddleware.findToken req).1 = some t) (hne : t ≠ "") :
    (verifyAccessToken now (decode t) = .error .expired →
      AuthMiddleware.authenticate decode now req =
        .proceed none (some t) true) ∧
    (∀ e, e ≠ VerifyErr.expired →
      verifyAccessToken now (decode t) = .error e →
      AuthMiddleware.authenticate decode now req =
          .rejected 401
            ⟨false, "Token inválido o mal formado", some "INVALID_TOKEN"⟩ ∧
        protectedPipeline decode now req =
          .rejected 401
            ⟨false, "Token inválido o mal formado", some "INVALID_TOKEN"⟩ []) ∧
    (∀ c iat exp, decode t = .signed .access c iat exp true →
      AuthMiddleware.authenticate decode now req =
        .rejected 401
          ⟨false, "Token inválido o mal formado", some "INVALID_TOKEN"⟩) := by
  refine ⟨?_, ?_, ?_⟩
  · intro h
    simp [AuthMiddleware.authenticate, hfind, hne, h]
  · intro e he h
    have hrej : AuthMiddleware.authenticate decode now req =
        .rejected 401
          ⟨false, "Token inválido o mal formado", some "INVALID_TOKEN"⟩ := by
      cases e with
      | expired => exact absurd rfl he
      | tampered => simp [AuthMiddleware.authenticate, hfind, hne, h]
      | malformed => simp [AuthMiddleware.authenticate, hfind, hne, h]
    exact ⟨hrej, by simp [protectedPipeline, hrej]⟩
  · intro c iat exp h
    have hv : verifyAccessToken now (decode t) = .error .tampered := by
      simp [verifyAccessToken, verifyKind, h]
    simp [AuthMiddleware.authenticate, hfind, hne, hv]

/-- Witness for C2: the fixture request carrying the signature-flipped (but
unexpired) token `acc7t` is rejected `INVALID_TOKEN`. -/
theorem authenticate_expired_defers_invalid_rejects_witness :
    AuthMiddleware.authenticate demoDecode 500 demoTamperReq =
      .rejected 401
        ⟨false, "Token inválido o mal formado", some "INVALID_TOKEN"⟩ :=
  (authenticate_expired_defers_invalid_rejects demoDecode 500 demoTamperReq
      "acc7t" (by decide) (by decide)).2.2
    demoAccessClaims 0 900 (by decide)

/-- C3 counterexample: the probe does not take the first non-empty match.
With an Authorization header of exactly `"Bearer "` (so the extracted
candidate is the empty string) and a non-empty `token` query parameter, the
request is rejected `TOKEN_REQUIRED` even though a candidate token `"abc"`
is present in the query location — the header branch short-circuits the
else-if chain before the query is ever probed. -/
theorem findToken_empty_bearer_counterexample :
    emptyBearerReq.queryToken = some "abc" ∧
    AuthMiddleware.findToken emptyBearerReq = (some "", "header") ∧
    AuthMiddleware.authenticate demoDecode 500 emptyBearerReq =
      .rejected 401
        ⟨false, "Token de acceso requerido", some "TOKEN_REQUIRED"⟩ := by
  decide

/-- C3 amended: the probe takes the first *present* location in the fixed
order header → query → cookie → body and records its source, where the
header counts as present whenever the Authorization value is truthy and
starts with `"Bearer "` — even if the candidate after the space is empty, in
which case the request is rejected `TOKEN_REQUIRED` without probing the
later locations; the other three locations count as present when non-empty;
and when no location is present the request is rejected `TOKEN_REQUIRED`. -/
theorem findToken_priority_amended (req : Request) :
    (jsTruthyStr req.authorization = true ∧
        startsWithBearer (req.authorization.getD "") = true →
      AuthMiddleware.findToken req =
        (some (bearerSplit (req.authorization.getD "")), "header")) ∧
    (¬ (jsTruthyStr req.authorization = true ∧
        startsWithBearer (req.authorization.getD "") = true) →
      jsTruthyStr req.queryToken = true →
      AuthMiddleware.findToken req = (req.queryToken, "query")) ∧
    (¬ (jsTruthyStr req.authorization = true ∧
        startsWithBearer (req.authorization.getD "") = true) →
      jsTruthyStr req.queryToken = false →
      jsTruthyStr req.cookieAccessToken = true →
      AuthMiddleware.findToken req = (req.cookieAccessToken, "cookie")) ∧
    (¬ (jsTruthyStr req.authorization = true ∧
        startsWithBearer (req.authorization.getD "") = true) →
      jsTruthyStr req.queryToken = false →
      jsTruthyStr req.cookieAccessToken = false →
      jsTruthyStr req.bodyToken = true →
      AuthMiddleware.findToken req = (req.bodyToken, "body")) ∧
    (¬ (jsTruthyStr req.authorization = true ∧
        startsWithBearer (req.authorization.getD "") = true) →
      jsTruthyStr req.queryToken = false →
      jsTruthyStr req.cookieAccessToken = false →
      jsTruthyStr req.bodyToken = false →
      AuthMiddleware.findToken req = (none, "none")) ∧
    (∀ decode now,
      ((AuthMiddleware.findToken req).1 = none ∨
        (AuthMiddleware.findToken req).1 = some "") →
      AuthMiddleware.authenticate decode now req =
        .rejected 401
          ⟨false, "Token de acceso requerido", some "TOKEN_REQUIRED"⟩) := by
  refine ⟨?_, ?_, ?_, ?_, ?_, ?_⟩
  · intro h
    simp [AuthMiddleware.findToken, h]
  · intro h hq
    simp [AuthMiddleware.findToken, h, hq]
  · intro h hq hc
    simp [AuthMiddleware.findToken, h, hq, hc]
  · intro h hq hc hb
    simp [AuthMiddleware.findToken, h, hq, hc, hb]
  · intro h hq hc hb
    simp [AuthMiddleware.findToken, h, hq, hc, hb]
  · intro decode now h
    cases h with
    | inl h => simp [AuthMiddleware.authenticate, h]
    | inr h => simp [AuthMiddleware.authenticate, h]

/-- Witness for the amended C3: a request with only a query token is picked
up from the query location with its source recorded. -/
theorem findToken_priority_amended_witness :
    AuthMiddleware.findToken ⟨none, some "q1", none, none, none⟩ =
      (some "q1", "query") :=
  (findToken_priority_amended ⟨none, some "q1", none, none, none⟩).2.1
    (by decide) (by decide)

/-- C1 counterexample: a successful transparent renewal does not rotate the
refresh token.  The fixture request carries the expired access token
`acc7x` and the valid refresh cookie `ref7`; the pipeline succeeds and
surfaces a freshly minted access token in the `X-New-Access-Token` header,
but its cookie-operation list is empty — no new refresh token is minted,
the refresh cookie is never overwritten, and its value after the request is
exactly the `ref7` the client sent, not a different one. -/
theorem renewal_no_rotation_counterexample :
    demoRenewReq.cookieRefreshToken = some "ref7" ∧
    verifyRefreshToken 500 (demoDecode "ref7") = .ok demoRefreshClaims ∧
    protectedPipeline demoDecode 500 demoRenewReq =
      .handled (some ⟨none, some "eva@acme.io", "hr", none, none, none⟩)
        (some (.minted (createAccessToken 500
          ⟨none, none, some "eva@acme.io", some "hr", none, none, none⟩)))
        false
        (some (createAccessToken 500
          ⟨none, none, some "eva@acme.io", some "hr", none, none, none⟩))
        [] := by
  decide

/-- C1 amended: on every successful renewal (expired access token, truthy
refresh cookie whose token verifies), the renewal interceptor mints a new
access token from the refresh claims (reading the `id_user` key), attaches
the renewed identity, surfaces the new access token in the
`X-New-Access-Token` header — and performs no cookie operation at all: no
new refresh token is minted and the refresh cookie keeps the value the
client sent. -/
theorem renewal_amended
    (decode : String → Wire) (now : Nat) (user0 : Option UserCtx)
    (token0 : Option TokenVal) (s : String) (d : Claims)
    (hs : s ≠ "")
    (hok : verifyRefreshToken now (decode s) = .ok d) :
    checkRefreshCookie decode now user0 token0 true (some s) =
      .next
        (some ⟨d.id_user, d.email, jsOrStr d.role "user", none, none, none⟩)
        (some (.minted (createAccessToken now
          ⟨none, d.id_user, d.email, some (jsOrStr d.role "user"),
            none, none, none⟩)))
        false
        (some (createAccessToken now
          ⟨none, d.id_user, d.email, some (jsOrStr d.role "user"),
            none, none, none⟩))
        [] := by
  simp [checkRefreshCookie, jsTruthyStr, hs, hok]

/-- Witness for the amended C1 at the renewal fixture. -/
theorem renewal_amended_witness :
    checkRefreshCookie demoDecode 500 none (some (.raw "acc7x")) true
        (some "ref7") =
      .next
        (some ⟨none, some "eva@acme.io", "hr", none, none, none⟩)
        (some (.minted (createAccessToken 500
          ⟨none, none, some "eva@acme.io", some "hr", none, none, none⟩)))
        false
        (some (createAccessToken 500
          ⟨none, none, some "eva@acme.io", some "hr", none, none, none⟩))
        [] :=
  renewal_amended demoDecode 500 none (some (.raw "acc7x")) "ref7"
    demoRefreshClaims (by decide) (by decide)

/-- C4: the two failing login causes are indistinguishable.  For any store,
a login attempt with an email matching no credential record and one with a
known email but a bcrypt-mismatching password produce literally the same
response value: status 401, message `Credenciales inválidas`, and the same
(absent) error code — no user-enumeration signal. -/
theorem login_enumeration_safe
    (db : Db) (prod : Bool) (now : Nat)
    (e1 p1 e2 p2 : String) (r : UserRow) (rest : List UserRow)
    (he1 : e1 ≠ "") (hp1 : p1 ≠ "") (he2 : e2 ≠ "") (hp2 : p2 ≠ "")
    (hunknown : queryLogin db e1 = [])
    (hknown : queryLogin db e2 = r :: rest)
    (hmismatch : bcryptCompare p2 r.password = false) :
    AuthController.login db prod now (some e1) (some p1) =
        .failure 401 ⟨false, "Credenciales inválidas", none⟩ ∧
    AuthController.login db prod now (some e2) (some p2) =
        .failure 401 ⟨false, "Credenciales inválidas", none⟩ := by
  constructor
  · simp [AuthController.login, jsTruthyStr, he1, hp1, AuthModel.login,
      hunknown]
  · simp [AuthController.login, jsTruthyStr, he2, hp2, AuthModel.login,
      hknown, hmismatch]

/-- Witness for C4: in the fixture store, an unknown email and a known
email with a wrong password fail identically. -/
theorem login_enumeration_safe_witness :
    AuthController.login demoDb false 100 (some "x@y.z") (some "Whatever1") =
        .failure 401 ⟨false, "Credenciales inválidas", none⟩ ∧
    AuthController.login demoDb false 100 (some "eva@acme.io")
        (some "Wrong9999") =
        .failure 401 ⟨false, "Credenciales inválidas", none⟩ :=
  login_enumeration_safe demoDb false 100 "x@y.z" "Whatever1" "eva@acme.io"
    "Wrong9999" ⟨7, "hr", "eva@acme.io", bcryptHash "Passw0rdX"⟩ []
    (by decide) (by decide) (by decide) (by decide)
    (by decide) (by decide) (by decide)

/-- C5: a login with credentials matching a stored record answers 200 with
`expiresIn` 900, an access token whose `user_id` claim equals the
`user_id` of the record, a user object `{user_id, email, role, name, surname}` with the
password hash stripped (the `PublicUser` shape has no password field; name
and surname are the empty string, as the `users` table stores neither), and
a `Set-Cookie` for the rotated refresh token that is HTTP-only, strict
same-site, 7-day max-age and path-scoped to `/api`. -/
theorem login_success_contract
    (db : Db) (prod : Bool) (now : Nat) (e p : String)
    (r : UserRow) (rest : List UserRow)
    (he : e ≠ "") (hp : p ≠ "")
    (hq : queryLogin db e = r :: rest)
    (hmatch : bcryptCompare p r.password = true) :
    AuthController.login db prod now (some e) (some p) =
      .success 200
        (createAccessToken now
          ⟨some r.user_id, none, some r.email, some r.role,
            some "", some "", none⟩)
        900
        ⟨r.user_id, r.email, r.role, "", ""⟩
        [.set "refresh_token"
          (createRefreshToken now
            ⟨some r.user_id, none, some r.email, some r.role,
              none, none, none⟩)
          (refreshCookieAttrs prod)] ∧
    Wire.payloadUserId
        (createAccessToken now
          ⟨some r.user_id, none, some r.email, some r.role,
            some "", some "", none⟩) = some r.user_id ∧
    (refreshCookieAttrs prod).httpOnly = true ∧
    (refreshCookieAttrs prod).sameSite = "strict" ∧
    (refreshCookieAttrs prod).maxAge = some 604800000 ∧
    (refreshCookieAttrs prod).path = some "/api" := by
  refine ⟨?_, rfl, rfl, rfl, rfl, rfl⟩
  simp [AuthController.login, jsTruthyStr, he, hp, AuthModel.login, hq,
    hmatch]

/-- Witness for C5 at the fixture store. -/
theorem login_success_contract_witness :
    AuthController.login demoDb true 100 (some "eva@acme.io")
        (some "Passw0rdX") =
      .success 200
        (createAccessToken 100
          ⟨some 7, none, some "eva@acme.io", some "hr",
            some "", some "", none⟩)
        900
        ⟨7, "eva@acme.io", "hr", "", ""⟩
        [.set "refresh_token"
          (createRefreshToken 100
            ⟨some 7, none, some "eva@acme.io", some "hr",
              none, none, none⟩)
          (refreshCookieAttrs true)] :=
  (login_success_contract demoDb true 100 "eva@acme.io" "Passw0rdX"
    ⟨7, "hr", "eva@acme.io", bcryptHash "Passw0rdX"⟩ []
    (by decide) (by decide) (by decide) (by decide)).1

/-- C6 counterexample: not every presented-token rejection clears the
refresh cookie.  In the standalone `/refresh` endpoint, the
signature-flipped refresh token `ref7t` is presented and rejected
`INVALID_REFRESH_TOKEN` — with an empty cookie-operation list: the cookie
is not cleared before rejecting. -/
theorem refresh_invalid_no_clear_counterexample :
    AuthController.refreshToken false 500 demoDecode (some "ref7t") =
      .failure 401
        ⟨false, "Refresh token inválido", some "INVALID_REFRESH_TOKEN"⟩
        [] := by
  decide

/-- C6 amended: clearing on the rejection paths of refresh-token renewal is
as follows.  Standalone `/refresh` endpoint: an expired refresh token
rejects `SESSION_EXPIRED` clearing the cookie (with the issuance-parity
attributes); a non-expiry verification failure rejects
`INVALID_REFRESH_TOKEN` *without* clearing; a refresh token that verifies
reaches the broken `Auth.getUserById` call (not exported by the auth model)
and the endpoint answers 500 clearing nothing; an absent token rejects
`REFRESH_TOKEN_REQUIRED` clearing nothing.  Renewal interceptor: every
verification failure rejects `INVALID_SESSION` clearing the cookie (with no
attributes), and an absent token rejects `SESSION_EXPIRED` clearing
nothing. -/
theorem refresh_rejection_clearing_amended
    (prod : Bool) (now : Nat) (decode : String → Wire)
    (s : String) (hs : s ≠ "") :
    (verifyRefreshToken now (decode s) = .error .expired →
      AuthController.refreshToken prod now decode (some s) =
        .failure 401
          ⟨false, "Sesión expirada. Por favor inicie sesión nuevamente.",
            some "SESSION_EXPIRED"⟩
          [.clear "refresh_token" (some (clearCookieAttrs prod))]) ∧
    (∀ e, e ≠ VerifyErr.expired →
      verifyRefreshToken now (decode s) = .error e →
      AuthController.refreshToken prod now decode (some s) =
        .failure 401
          ⟨false, "Refresh token inválido", some "INVALID_REFRESH_TOKEN"⟩
          []) ∧
    (∀ d, verifyRefreshToken now (decode s) = .ok d →
      AuthController.refreshToken prod now decode (some s) =
        .failure 500 ⟨false, "Error interno del servidor", none⟩ []) ∧
    (AuthController.refreshToken prod now decode none =
      .failure 401
        ⟨false, "Refresh token requerido", some "REFRESH_TOKEN_REQUIRED"⟩
        []) ∧
    (∀ u t e, verifyRefreshToken now (decode s) = .error e →
      checkRefreshCookie decode now u t true (some s) =
        .reject 401
          ⟨false, "Sesión inválida. Por favor, inicia sesión nuevamente.",
            some "INVALID_SESSION"⟩
          [.clear "refresh_token" none]) ∧
    (∀ u t, checkRefreshCookie decode now u t true none =
      .reject 401
        ⟨false, "Sesión expirada. Por favor, inicia sesión nuevamente.",
          some "SESSION_EXPIRED"⟩
        []) := by
  refine ⟨?_, ?_, ?_, ?_, ?_, ?_⟩
  · intro h
    simp [AuthController.refreshToken, jsTruthyStr, hs, h]
  · intro e he h
    cases e with
    | expired => exact absurd rfl he
    | tampered => simp [AuthController.refreshToken, jsTruthyStr, hs, h]
    | malformed => simp [AuthController.refreshToken, jsTruthyStr, hs, h]
  · intro d hok
    simp [AuthController.refreshToken, jsTruthyStr, hs, hok]
  · simp [AuthController.refreshToken, jsTruthyStr]
  · intro u t e h
    simp [checkRefreshCookie, jsTruthyStr, hs, h]
  · intro u t
    simp [checkRefreshCookie, jsTruthyStr]

/-- Witness for the amended C6: the expired refresh token `ref7x` presented
to the `/refresh` endpoint rejects `SESSION_EXPIRED` and clears the cookie
with the issuance-parity attributes. -/
theorem refresh_rejection_clearing_amended_witness :
    AuthController.refreshToken false 500 demoDecode (some "ref7x") =
      .failure 401
        ⟨false, "Sesión expirada. Por favor inicie sesión nuevamente.",
          some "SESSION_EXPIRED"⟩
        [.clear "refresh_token" (some (clearCookieAttrs false))] :=
  (refresh_rejection_clearing_amended false 500 demoDecode "ref7x"
    (by decide)).1 (by decide)

/-- A non-empty `authModel.login` result is the password-stripped projection
of a row of the store. -/
theorem AuthModel.login_mem (db : Db) (e p : String) (u : UserPublicRow)
    (rest : List UserPublicRow)
    (h : AuthModel.login db e p = u :: rest) :
    ∃ r ∈ db, u = ⟨r.user_id, r.role, r.email⟩ := by
  unfold AuthModel.login at h
  cases hq : queryLogin db e with
  | nil => rw [hq] at h; simp at h
  | cons r0 tl =>
      rw [hq] at h
      by_cases hb : bcryptCompare p r0.password
      · simp only [hb, if_true] at h
        have hr0 : r0 ∈ db := by
          have : r0 ∈ queryLogin db e := by
            rw [hq]; exact List.mem_cons_self r0 tl
          exact (List.mem_filter.mp this).1
        have hu : u = (⟨r0.user_id, r0.role, r0.email⟩ : UserPublicRow) :=
          (List.cons.injEq _ _ _ _ ▸ h).1.symm
        exact ⟨r0, hr0, hu⟩
      · simp [hb] at h

/-- C7 counterexample: the renewal interceptor issues an access token for a
non-existent account.  With the credential store empty — user 7 of the
still-valid refresh token `ref7` has just been deleted — the interceptor
takes no store input at all, so it still succeeds, mints a new access token
from the stale refresh claims and surfaces it in the response header. -/
theorem mint_without_record_counterexample :
    queryGetUserById ([] : Db) demoRefreshClaims.user_id = [] ∧
    checkRefreshCookie demoDecode 500 none (some (.raw "acc7x")) true
        (some "ref7") =
      .next
        (some ⟨none, some "eva@acme.io", "hr", none, none, none⟩)
        (some (.minted (createAccessToken 500
          ⟨none, none, some "eva@acme.io", some "hr", none, none, none⟩)))
        false
        (some (createAccessToken 500
          ⟨none, none, some "eva@acme.io", some "hr", none, none, none⟩))
        [] := by
  decide

/-- C7 amended: `login` mints only when a credential record currently
exists, deriving the claims of the minted access token from that record;
the standalone `/refresh` endpoint never mints at all — a verifying refresh
token reaches the broken `Auth.getUserById` call (not exported by the auth
model) and the endpoint answers 500 before any token is created; and the
renewal interceptor consults no store, deriving the claims of the new token
solely from the presented refresh token, so it can issue a token for a
just-deleted account. -/
theorem mint_requires_record_amended
    (db : Db) (prod : Bool) (now : Nat) (decode : String → Wire)
    (email password : Option String) (cookie : Option String) :
    (∀ st tok ei u ops,
      AuthController.login db prod now email password =
        .success st tok ei u ops →
      ∃ r ∈ db, u = ⟨r.user_id, r.email, r.role, "", ""⟩ ∧
        tok = createAccessToken now
          ⟨some r.user_id, none, some r.email, some r.role,
            some "", some "", none⟩) ∧
    (∀ st tok ei u ops,
      AuthController.refreshToken prod now decode cookie ≠
        .success st tok ei u ops) := by
  constructor
  · intro st tok ei u ops h
    unfold AuthController.login at h
    split at h
    · exact absurd h (by simp)
    · split at h
      · exact absurd h (by simp)
      · rename_i u0 tl hm
        obtain ⟨r, hr, hu0⟩ :=
          AuthModel.login_mem db (email.getD "") (password.getD "") u0 tl hm
        cases h
        exact ⟨r, hr, by rw [hu0], by rw [hu0]⟩
  · intro st tok ei u ops h
    unfold AuthController.refreshToken at h
    split at h
    · exact absurd h (by simp)
    · split at h
      · exact absurd h (by simp)
      · exact absurd h (by simp)
      · exact absurd h (by simp)

/-- Witness for the amended C7: the successful fixture login for user 7 is
backed by the record held in the store, and the `/refresh` endpoint with the
valid refresh token `ref7` does not answer success. -/
theorem mint_requires_record_amended_witness :
    (∃ r ∈ demoDb,
      (⟨7, "eva@acme.io", "hr", "", ""⟩ : PublicUser) =
          ⟨r.user_id, r.email, r.role, "", ""⟩ ∧
        createAccessToken 100
            ⟨some 7, none, some "eva@acme.io", some "hr",
              some "", some "", none⟩ =
          createAccessToken 100
            ⟨some r.user_id, none, some r.email, some r.role,
              some "", some "", none⟩) ∧
    AuthController.refreshToken true 100 demoDecode (some "ref7") ≠
      .success 200
        (createAccessToken 100
          ⟨some 7, none, some "eva@acme.io", some "hr",
            some "", some "", none⟩)
        900 ⟨7, "eva@acme.io", "hr", "", ""⟩ [] :=
  ⟨(mint_requires_record_amended demoDb true 100 demoDecode
      (some "eva@acme.io") (some "Passw0rdX") (some "ref7")).1
    200
    (createAccessToken 100
      ⟨some 7, none, some "eva@acme.io", some "hr", some "", some "", none⟩)
    900 ⟨7, "eva@acme.io", "hr", "", ""⟩
    [.set "refresh_token"
      (createRefreshToken 100
        ⟨some 7, none, some "eva@acme.io", some "hr", none, none, none⟩)
      (refreshCookieAttrs true)]
    (by decide),
  (mint_requires_record_amended demoDb true 100 demoDecode
      (some "eva@acme.io") (some "Passw0rdX") (some "ref7")).2
    200
    (createAccessToken 100
      ⟨some 7, none, some "eva@acme.io", some "hr", some "", some "", none⟩)
    900 ⟨7, "eva@acme.io", "hr", "", ""⟩ []⟩

/-- C8 counterexample: the factory gate `hasRole` does not use a
role-specific code.  An authenticated `hr` identity on a
route gated by `hasRole` for admin is denied with the fixed code
`ROLE_REQUIRED`, not `ADMIN_REQUIRED`; an `admin` identity on a
route gated by `hasRole` for hr is denied with the very same code, so the error
code does not identify the required role. -/
theorem hasRole_generic_code_counterexample :
    AuthMiddleware.hasRole "admin" (some demoHrUser) =
      .deny 403
        ⟨false, "Acceso denegado. Se requiere rol: admin",
          some "ROLE_REQUIRED"⟩ ∧
    AuthMiddleware.hasRole "hr" (some demoAdminUser) =
      .deny 403
        ⟨false, "Acceso denegado. Se requiere rol: hr",
          some "ROLE_REQUIRED"⟩ := by
  decide

/-- C8 amended: every role gate fails `NOT_AUTHENTICATED` (401) when no
identity is attached, regardless of the required role; on a role mismatch
the dedicated gates fail 403 with their role-specific codes
(`ADMIN_REQUIRED`, `HR_REQUIRED`, `MARKETING_REQUIRED`) while the factory
gate `hasRole` fails 403 with the fixed role-independent code
`ROLE_REQUIRED`; an `hr` identity is denied `ADMIN_REQUIRED` by
`requireAdmin` and passes `requireHR`.  The gates are pure predicates over
the attached identity — their outcome carries no context update, so they
have no side effects by construction. -/
theorem role_gate_amended (u : UserCtx) (role : String)
    (roles : List String) :
    (AuthMiddleware.requireAdmin none =
      .deny 401 ⟨false, "No autenticado", some "NOT_AUTHENTICATED"⟩) ∧
    (AuthMiddleware.requireHR none =
      .deny 401 ⟨false, "No autenticado", some "NOT_AUTHENTICATED"⟩) ∧
    (AuthMiddleware.requireMarketing none =
      .deny 401 ⟨false, "No autenticado", some "NOT_AUTHENTICATED"⟩) ∧
    (AuthMiddleware.hasRole role none =
      .deny 401 ⟨false, "No autenticado", some "NOT_AUTHENTICATED"⟩) ∧
    (AuthMiddleware.hasAnyRole roles none =
      .deny 401 ⟨false, "No autenticado", some "NOT_AUTHENTICATED"⟩) ∧
    (u.role ≠ "admin" →
      AuthMiddleware.requireAdmin (some u) =
        .deny 403
          ⟨false, "Acceso denegado: solo administradores",
            some "ADMIN_REQUIRED"⟩) ∧
    (u.role ≠ "hr" →
      AuthMiddleware.requireHR (some u) =
        .deny 403
          ⟨false, "Acceso denegado: solo recursos humanos",
            some "HR_REQUIRED"⟩) ∧
    (u.role ≠ "mkt" →
      AuthMiddleware.requireMarketing (some u) =
        .deny 403
          ⟨false, "Acceso denegado: solo marketing",
            some "MARKETING_REQUIRED"⟩) ∧
    (u.role ≠ role →
      AuthMiddleware.hasRole role (some u) =
        .deny 403
          ⟨false, "Acceso denegado. Se requiere rol: " ++ role,
            some "ROLE_REQUIRED"⟩) ∧
    (u.role = "hr" →
      AuthMiddleware.requireAdmin (some u) =
          .deny 403
            ⟨false, "Acceso denegado: solo administradores",
              some "ADMIN_REQUIRED"⟩ ∧
        AuthMiddleware.requireHR (some u) = .allow) := by
  refine ⟨rfl, rfl, rfl, rfl, rfl, ?_, ?_, ?_, ?_, ?_⟩
  · intro h; simp [AuthMiddleware.requireAdmin, h]
  · intro h; simp [AuthMiddleware.requireHR, h]
  · intro h; simp [AuthMiddleware.requireMarketing, h]
  · intro h; simp [AuthMiddleware.hasRole, h]
  · intro h
    constructor
    · simp [AuthMiddleware.requireAdmin, h]
    · simp [AuthMiddleware.requireHR, h]

/-- Witness for the amended C8: the `hr` fixture identity is denied
`ADMIN_REQUIRED` by the admin gate and passes the hr gate. -/
theorem role_gate_amended_witness :
    AuthMiddleware.requireAdmin (some demoHrUser) =
        .deny 403
          ⟨false, "Acceso denegado: solo administradores",
            some "ADMIN_REQUIRED"⟩ ∧
      AuthMiddleware.requireHR (some demoHrUser) = .allow :=
  (role_gate_amended demoHrUser "admin" []).2.2.2.2.2.2.2.2.2 (by decide)

/-- C9 counterexample: logout is not unconditional.  The `/logout` route
runs `authMiddleware.authenticate` before the logout controller, so a
logout request carrying no token at all is rejected 401 `TOKEN_REQUIRED`:
the refresh cookie is not cleared and success is not returned. -/
theorem logout_requires_token_counterexample :
    logoutRoute demoDecode 500 false ⟨none, none, none, none, none⟩ =
      ⟨401, ⟨false, "Token de acceso requerido", some "TOKEN_REQUIRED"⟩,
        []⟩ := by
  decide

/-- C9 amended: the logout controller itself always clears the refresh
cookie with the issuance-parity attributes (HTTP-only, secure-in-production,
strict same-site, path `/api` — agreeing with the set-cookie attributes on
every field but the irrelevant max-age) and returns success; but the
`/logout` route runs the authenticator first, so a request is cleared-and-
confirmed exactly when its access token is found and verifies or is merely
expired — a request rejected by the authenticator (absent, tampered or
malformed token) gets the 401 of the authenticator and no cookie
operation. -/
theorem logout_amended (decode : String → Wire) (now : Nat) (prod : Bool)
    (req : Request) :
    (AuthController.logout prod =
      (200, ⟨true, "Sesión cerrada exitosamente.", none⟩,
        [.clear "refresh_token" (some (clearCookieAttrs prod))])) ∧
    ((clearCookieAttrs prod).httpOnly = (refreshCookieAttrs prod).httpOnly ∧
      (clearCookieAttrs prod).secure = (refreshCookieAttrs prod).secure ∧
      (clearCookieAttrs prod).sameSite = (refreshCookieAttrs prod).sameSite ∧
      (clearCookieAttrs prod).path = (refreshCookieAttrs prod).path) ∧
    (∀ s b, AuthMiddleware.authenticate decode now req = .rejected s b →
      logoutRoute decode now prod req = ⟨s, b, []⟩) ∧
    (∀ u t e, AuthMiddleware.authenticate decode now req = .proceed u t e →
      logoutRoute decode now prod req =
        ⟨200, ⟨true, "Sesión cerrada exitosamente.", none⟩,
          [.clear "refresh_token" (some (clearCookieAttrs prod))]⟩) := by
  refine ⟨rfl, ⟨rfl, rfl, rfl, rfl⟩, ?_, ?_⟩
  · intro s b h
    simp [logoutRoute, h]
  · intro u t e h
    simp [logoutRoute, h, AuthController.logout]

/-- Witness for the amended C9: a logout request with a valid access token
reaches the controller, clears the cookie and returns success. -/
theorem logout_amended_witness :
    logoutRoute demoDecode 500 true ⟨some "Bearer acc7", none, none, none,
        none⟩ =
      ⟨200, ⟨true, "Sesión cerrada exitosamente.", none⟩,
        [.clear "refresh_token" (some (clearCookieAttrs true))]⟩ :=
  (logout_amended demoDecode 500 true
      ⟨some "Bearer acc7", none, none, none, none⟩).2.2.2
    (some demoHrUser) (some "acc7") false (by decide)

/-- C10: a successfully verified token whose claims carry no role yields an
attached identity whose role is the literal `user`, in both attachment
sites.  `authenticate` defaults the missing role to `user` (the request is
authenticated but is then denied by each of the admin/hr/mkt gates), and the
renewal interceptor likewise defaults the missing refresh-claim role to
`user`, both in the attached identity and in the claims of the access token
it mints. -/
theorem missing_role_defaults_to_user
    (decode : String → Wire) (now : Nat) (req : Request) (t : String)
    (c : Claims)
    (hfind : (AuthMiddleware.findToken req).1 = some t) (hne : t ≠ "")
    (hok : verifyAccessToken now (decode t) = .ok c)
    (hrole : c.role = none)
    (hid : jsTruthyNat c.user_id = true) :
    (AuthMiddleware.authenticate decode now req =
      .proceed
        (some ⟨c.user_id, c.email, "user", some (jsOrStr c.name ""),
          some (jsOrStr c.surname ""),
          some (jsOrStr c.loginMethod "traditional")⟩)
        (some t) false) ∧
    (∀ n s lm,
      AuthMiddleware.requireAdmin (some ⟨c.user_id, c.email, "user", n, s,
          lm⟩) =
        .deny 403
          ⟨false, "Acceso denegado: solo administradores",
            some "ADMIN_REQUIRED"⟩ ∧
      AuthMiddleware.requireHR (some ⟨c.user_id, c.email, "user", n, s,
          lm⟩) =
        .deny 403
          ⟨false, "Acceso denegado: solo recursos humanos",
            some "HR_REQUIRED"⟩ ∧
      AuthMiddleware.requireMarketing (some ⟨c.user_id, c.email, "user", n,
          s, lm⟩) =
        .deny 403
          ⟨false, "Acceso denegado: solo marketing",
            some "MARKETING_REQUIRED"⟩) ∧
    (∀ s d u0 t0, s ≠ "" →
      verifyRefreshToken now (decode s) = .ok d → d.role = none →
      checkRefreshCookie decode now u0 t0 true (some s) =
        .next (some ⟨d.id_user, d.email, "user", none, none, none⟩)
          (some (.minted (createAccessToken now
            ⟨none, d.id_user, d.email, some "user", none, none, none⟩)))
          false
          (some (createAccessToken now
            ⟨none, d.id_user, d.email, some "user", none, none, none⟩))
          []) := by
  refine ⟨?_, ?_, ?_⟩
  · have hr : jsOrStr c.role "user" = "user" := by
      simp [jsOrStr, jsTruthyStr, hrole]
    simp [AuthMiddleware.authenticate, hfind, hne, hok, hid, hr]
  · intro n s lm
    exact ⟨rfl, rfl, rfl⟩
  · intro s d u0 t0 hs hok2 hrole2
    have hr : jsOrStr d.role "user" = "user" := by
      simp [jsOrStr, jsTruthyStr, hrole2]
    simp [checkRefreshCookie, jsTruthyStr, hs, hok2, hr]

/-- Witness for C10: the role-less access token `accnr` authenticates as
role `user`, and the role-less refresh token `refnr` renews to a `user`
identity. -/
theorem missing_role_defaults_to_user_witness :
    AuthMiddleware.authenticate demoDecode 500
        ⟨some "Bearer accnr", none, none, some "refnr", none⟩ =
      .proceed
        (some ⟨some 7, some "eva@acme.io", "user", some "", some "",
          some "traditional"⟩)
        (some "accnr") false :=
  (missing_role_defaults_to_user demoDecode 500
      ⟨some "Bearer accnr", none, none, some "refnr", none⟩ "accnr"
      demoNoRoleClaims (by decide) (by decide) (by decide) (by decide)
      (by decide)).1

end DesafioAuth
